import Mathlib

/-!
Shallow embedding of `src/streamlit_app.py` (a DataForSEO SERP scraper):
the task-submission phase, the poll/extract loop of `scrape_google_urls`,
and the batch driver of `main`, together with theorems about the claims
of the specification.

Conventions of the embedding:
* JSON values decoded from HTTP responses are modelled by the inductive
  `Json`; Python's `dict.get` and subscripting, which raise on receivers
  of the wrong type, are modelled in the `Except String` monad.
* Python truthiness (`if x:`) is modelled by `Json.truthy`, and for
  `Option String` fields by `≠ none` and `≠ some ""`.
* `requests` transport failures, which the code catches and converts to
  `None`, are modelled by `Option`/a dedicated constructor.
* Each attempt of the poll loop performs one fetch; the sequence of fetch
  outcomes the environment would deliver is passed as a list, one element
  per attempt.
-/

namespace ScrapSerp

/-- A decoded JSON value, as returned by `response.json()`. -/
inductive Json where
  | null
  | bool (b : Bool)
  | num (n : Int)
  | str (s : String)
  | arr (elems : List Json)
  | obj (fields : List (String × Json))

/-- Python truthiness of a decoded JSON value. -/
def Json.truthy : Json → Bool
  | .null => false
  | .bool b => b
  | .num n => n != 0
  | .str s => s != ""
  | .arr xs => !xs.isEmpty
  | .obj fs => !fs.isEmpty

/-- First binding of a key in a JSON object's field list. -/
def lookupField (fs : List (String × Json)) (k : String) : Option Json :=
  (fs.find? (fun f => f.1 == k)).map Prod.snd

/-- Python `d.get(key, default)`: returns the value bound to `key`, the
default when absent, and raises `AttributeError` when the receiver is not
a dict. -/
def Json.get : Json → String → Json → Except String Json
  | .obj fs, k, d => .ok ((lookupField fs k).getD d)
  | _, _, _ => .error "AttributeError"

/-- Python subscripting `x[i]` for a non-negative index: list indexing,
string indexing (yielding a one-character string), `IndexError` when out
of range, and `TypeError`/`KeyError` on other receivers. -/
def Json.index : Json → Nat → Except String Json
  | .arr xs, i =>
    match xs.get? i with
    | some x => .ok x
    | none => .error "IndexError"
  | .str s, i =>
    match s.toList.get? i with
    | some c => .ok (.str (String.mk [c]))
    | none => .error "IndexError"
  | .obj _, _ => .error "KeyError"
  | _, _ => .error "TypeError"

/-- Outcome of the submission phase of `scrape_google_urls`
(lines 71–87): either an early `return results` (with `results` still
empty) because the POST failed or the response carried no usable task id,
or the extracted task id. -/
inductive SubmitOutcome where
  | noTask
  | taskId (id : Json)

/-- The submission phase of `scrape_google_urls` (lines 71–87), applied to
the decoded POST response (`none` models a transport failure, which
`post_task` converts to `None`).  An `Except.error` models a Python
exception escaping this code. -/
def submitPhase (post_response : Option Json) : Except String SubmitOutcome :=
  match post_response with
  | none => .ok .noTask
  | some post =>
    if post.truthy = false then .ok .noTask
    else
      match post.get "status_code" .null with
      | .error e => .error e
      | .ok sc =>
        match sc with
        | .num 20000 =>
          match post.get "tasks" (.arr []) with
          | .error e => .error e
          | .ok tasks =>
            if tasks.truthy = false then .ok .noTask
            else
              match tasks.index 0 with
              | .error e => .error e
              | .ok t0 =>
                match t0.get "id" .null with
                | .error e => .error e
                | .ok task_id =>
                  if task_id.truthy = false then .ok .noTask
                  else .ok (.taskId task_id)
        | _ => .ok .noTask

/-- Shape condition under which the submission phase cannot raise: the
`tasks` value, if truthy, must be an array whose first element is a dict. -/
def tasksShapeOk (t : Json) : Bool :=
  if t.truthy = false then true
  else
    match t with
    | .arr (Json.obj _ :: _) => true
    | _ => false

/-- Shape condition on the decoded POST response under which the
submission phase cannot raise: absent, falsy, or a JSON object whose
`tasks` field (when truthy) is an array of objects. -/
def submitShapeOk (post_response : Option Json) : Bool :=
  match post_response with
  | none => true
  | some p =>
    if p.truthy = false then true
    else
      match p with
      | .obj fs => tasksShapeOk ((lookupField fs "tasks").getD (.arr []))
      | _ => false

/-! ### Poll loop and result extraction (`scrape_google_urls`, lines 95–156)

The fetch responses handled by the poll loop are modelled structurally:
the fields the loop reads (`status_code`, `tasks`, `tasks[0].status_code`,
`tasks[0].result`, `result[*].items`, item `type`/`url`) become record
fields, optional JSON fields becoming `Option`. -/

/-- One entry of an `items` array inside a task result page.  Only the
`type` and `url` fields are relevant to the extraction loop. -/
structure SerpItem where
  type : Option String
  url : Option String
deriving DecidableEq

/-- One element of a task's `result` array: carries an `items` array. -/
structure SerpPage where
  items : List SerpItem
deriving DecidableEq

/-- One element of the `tasks` array of a GET response. -/
structure TaskEntry where
  status_code : Option Int
  result : List SerpPage
deriving DecidableEq

/-- Outcome of one `api.get_results` call: `noResponse` models a
transport failure (converted to `None` by `get_results`), `response`
a decoded JSON envelope with its `status_code` and `tasks`. -/
inductive FetchOutcome where
  | noResponse
  | response (status_code : Option Int) (tasks : List TaskEntry)
deriving DecidableEq

/-- A row appended to `results`: the dict
`{"Position": position, "URL": url}`. -/
structure ResultEntry where
  Position : Nat
  URL : String
deriving DecidableEq

/-- The flattening of all `items` arrays across the `result` elements
(lines 127–133). -/
def result_items (task_result : List SerpPage) : List SerpItem :=
  task_result.flatMap (fun page => page.items)

/-- The URL-extraction loop (lines 136–144): walk the flattened items
with a 1-based running position, stop once `results` holds `max_results`
rows, and append a row for each item whose `url` is present and
non-empty. -/
def extractLoop (max_results : Nat) :
    List SerpItem → Nat → List ResultEntry → List ResultEntry
  | [], _, results => results
  | item :: rest, position, results =>
    if max_results ≤ results.length then results
    else
      match item.url with
      | some u =>
        if u ≠ "" then
          extractLoop max_results rest (position + 1)
            (results ++ [{ Position := position, URL := u }])
        else extractLoop max_results rest (position + 1) results
      | none => extractLoop max_results rest (position + 1) results

/-- The whole success branch of the poll loop (lines 126–147), starting
from the empty `results` list. -/
def extractResults (max_results : Nat) (task_result : List SerpPage) :
    List ResultEntry :=
  extractLoop max_results (result_items task_result) 1 []

/-- Whether one fetch outcome takes the success branch of the loop body
(lines 110–126): a decoded response whose envelope `status_code` is
20000, whose `tasks` array is non-empty, and whose first task has
`status_code` 20000. -/
def isSuccess : FetchOutcome → Bool
  | .noResponse => false
  | .response sc tasks =>
    sc == some 20000 &&
      match tasks with
      | [] => false
      | t :: _ => t.status_code == some 20000

/-- The results extracted from a successful fetch outcome. -/
def successResult (max_results : Nat) : FetchOutcome → List ResultEntry
  | .noResponse => []
  | .response _ tasks =>
    match tasks with
    | [] => []
    | t :: _ => extractResults max_results t.result

/-- The attempt budget of the poll loop (line 95). -/
def max_attempts : Nat := 10

/-- The poll loop (lines 96–151): one fetch outcome is consumed per
attempt; a successful outcome is extracted and the loop stops; any other
outcome (transport failure, non-20000 envelope, empty `tasks`, pending or
unrecognized task status) continues to the next attempt; `results` stays
empty when the attempt budget runs out. -/
def pollAux (max_results : Nat) : List FetchOutcome → Nat → List ResultEntry
  | _, 0 => []
  | [], _ => []
  | r :: rest, n + 1 =>
    if isSuccess r then successResult max_results r
    else pollAux max_results rest n

/-- `scrape_google_urls` from the poll loop on (lines 95–156), given the
sequence of fetch outcomes the environment delivers, one per attempt:
the loop's `results` truncated by the final `return results[:max_results]`. -/
def scrapeResults (responses : List FetchOutcome) (max_results : Nat) :
    List ResultEntry :=
  (pollAux max_results responses max_attempts).take max_results

/-! ### Task submission body (`DataForSEOAPI.post_task`, lines 27–45) -/

/-- The fixed request body built by `post_task` (lines 29–37): a
one-element array whose entry carries the query and constant search
parameters. -/
def post_task_data (query : String) : Json :=
  .arr [.obj [("keyword", .str query),
              ("location_name", .str "France"),
              ("language_name", .str "French"),
              ("device", .str "desktop"),
              ("os", .str "windows"),
              ("depth", .num 100),
              ("se_domain", .str "google.fr")]]

/-- Field of the single task object inside a `post_task` request body. -/
def bodyField (body : Json) (k : String) : Option Json :=
  match body with
  | .arr [.obj fs] => lookupField fs k
  | _ => none

/-! ### Batch driver (`main`, lines 166–491) -/

/-- Python's whitespace test used by `str.strip()`. -/
def isPySpace (c : Char) : Bool :=
  c = ' ' || c = '\t' || c = '\n' || c = '\r' ||
    c = Char.ofNat 11 || c = Char.ofNat 12

/-- Python `s.strip()`: remove leading and trailing whitespace. -/
def pyStrip (s : String) : String :=
  (((s.toList.dropWhile isPySpace).reverse.dropWhile isPySpace).reverse).asString

/-- Helper for `pySplitLines`: accumulates the current line (reversed). -/
def splitLinesAux : List Char → List Char → List String
  | [], cur => [cur.reverse.asString]
  | c :: cs, cur =>
    if c = '\n' then cur.reverse.asString :: splitLinesAux cs []
    else splitLinesAux cs (c :: cur)

/-- Python `s.split('\n')`. -/
def pySplitLines (s : String) : List String :=
  splitLinesAux s.toList []

/-- Line 426: `[city.strip() for city in cities.split('\n') if
city.strip()]` — the trimmed, non-blank lines of the city text area,
in order, duplicates kept. -/
def cities_list (cities : String) : List String :=
  ((pySplitLines cities).map pyStrip).filter (fun c => c ≠ "")

/-- Line 452: `full_query = f"{query} {city}"`. -/
def full_query (query city : String) : String :=
  query ++ " " ++ city

/-- Python dict assignment `d[k] = v` on an insertion-ordered dict:
replace the value in place when the key exists, append otherwise. -/
def updateReport (report : List (String × List ResultEntry)) (k : String)
    (v : List ResultEntry) : List (String × List ResultEntry) :=
  match report with
  | [] => [(k, v)]
  | (k0, v0) :: rest =>
    if k0 = k then (k, v) :: rest
    else (k0, v0) :: updateReport rest k v

/-- The per-city loop of `main` (lines 451–458), projected onto the
`all_results` dict: each city's full query is scraped, and its rows are
recorded only when non-empty (`if data:`).  The environment `env` gives,
for every full query, the fetch outcomes its poll loop would observe. -/
def batchReport (query : String) (env : String → List FetchOutcome)
    (max_results : Nat) :
    List String → List (String × List ResultEntry) →
      List (String × List ResultEntry)
  | [], report => report
  | city :: rest, report =>
    batchReport query env max_results rest
      (if (scrapeResults (env (full_query query city)) max_results).isEmpty
       then report
       else updateReport report (full_query query city)
         (scrapeResults (env (full_query query city)) max_results))

/-- The same per-city loop (lines 451–455), projected onto the sequence
of full queries handed to `scrape_google_urls` (one submission each). -/
def batchSubmissions (query : String) (cities : List String) : List String :=
  cities.map (full_query query)

/-- Outcome of a `main` run. -/
inductive RunOutcome where
  | missingCredentials
  | inputError
  | launched (report : List (String × List ResultEntry))
      (submissions : List String)
deriving DecidableEq

/-- `main` (lines 166–491): abort when either secret key is absent
(lines 169–171); abort when the query is empty or no city remains after
trimming (lines 441–443); otherwise run the batch.  `secrets` is the set
of keys present in `st.secrets`. -/
def main (secrets : List String) (query cities : String)
    (env : String → List FetchOutcome) (max_results : Nat) : RunOutcome :=
  if (secrets.contains "DATAFORSEO_USERNAME" &&
      secrets.contains "DATAFORSEO_PASSWORD") = false then
    .missingCredentials
  else if query = "" ∨ cities_list cities = [] then .inputError
  else
    .launched (batchReport query env max_results (cities_list cities) [])
      (batchSubmissions query (cities_list cities))

/-- The full queries submitted by a run: none unless the batch launched. -/
def submissionsOf : RunOutcome → List String
  | .launched _ subs => subs
  | _ => []

/-- The request body `scrape_google_urls` submits for a city (line 71,
reached from line 455): `post_task` receives only the combined query;
the caller's result cap `max_results` is not forwarded to it. -/
def submittedBody (query city : String) (_max_results : Nat) : Json :=
  post_task_data (full_query query city)

/-- Rewrite the `type` field of an item, leaving `url` untouched.  Used
to state that the extraction loop never reads `type`. -/
def setItemType (f : Option String → Option String) (it : SerpItem) : SerpItem :=
  { it with type := f it.type }

/-- Rewrite every item's `type` field across a task result payload. -/
def setTypes (f : Option String → Option String) (pages : List SerpPage) :
    List SerpPage :=
  pages.map fun p => ⟨p.items.map (setItemType f)⟩

end ScrapSerp

namespace ScrapSerp

example : submitPhase (some (Json.arr [Json.num 1])) = Except.error "AttributeError" := rfl
example : submitPhase none = Except.ok .noTask := rfl
example : submitPhase (some (Json.obj [("status_code", Json.num 20000),
    ("tasks", Json.arr [Json.obj [("id", Json.str "t1")]])])) =
    Except.ok (.taskId (Json.str "t1")) := rfl

example : scrapeResults
    [FetchOutcome.response (some 20000) [⟨some 40602, []⟩],
     FetchOutcome.response (some 20000)
       [⟨some 20000, [⟨[⟨some "organic", some "https://a.example"⟩,
                        ⟨some "paid", some "https://b.example"⟩]⟩]⟩]] 100 =
    [⟨1, "https://a.example"⟩, ⟨2, "https://b.example"⟩] := by decide

example : scrapeResults
    [FetchOutcome.response (some 20000)
       [⟨some 20000, [⟨[⟨some "organic", none⟩,
                        ⟨some "organic", some "https://a.example"⟩]⟩]⟩]] 100 =
    [⟨2, "https://a.example"⟩] := by decide

example : scrapeResults (List.replicate 10 FetchOutcome.noResponse) 100 = [] := by decide

example : cities_list "Lyon\n\n  Lyon \nParis" = ["Lyon", "Lyon", "Paris"] := by decide

example : pyStrip "  a b\t" = "a b" := by decide

example : batchSubmissions "avocat" (cities_list "Lyon\n\nLyon") =
    ["avocat Lyon", "avocat Lyon"] := by decide

/-! ### Helper lemmas about the poll loop and the extraction loop -/

/-- The poll loop extracts the first successful fetch among the first
`fuel` outcomes, and yields the empty list when there is none. -/
theorem pollAux_eq (max_results : Nat) :
    ∀ (fuel : Nat) (responses : List FetchOutcome),
      pollAux max_results responses fuel =
        match (responses.take fuel).find? isSuccess with
        | some r => successResult max_results r
        | none => []
  | 0, responses => by simp [pollAux]
  | fuel + 1, [] => by simp [pollAux]
  | fuel + 1, r :: rest => by
    have hunf : pollAux max_results (r :: rest) (fuel + 1) =
        if isSuccess r then successResult max_results r
        else pollAux max_results rest fuel := rfl
    rw [hunf, List.take_succ_cons]
    by_cases h : isSuccess r
    · rw [if_pos h, List.find?_cons_of_pos _ h]
    · have hf : isSuccess r = false := by simpa using h
      rw [if_neg h, List.find?_cons_of_neg _ (by simp [hf])]
      exact pollAux_eq max_results fuel rest

/-- Every entry produced by the extraction loop was already accumulated
or originates from an input item carrying its (non-empty) URL. -/
theorem extractLoop_mem (max_results : Nat) :
    ∀ (items : List SerpItem) (position : Nat) (acc : List ResultEntry),
      ∀ e ∈ extractLoop max_results items position acc,
        e ∈ acc ∨ ∃ it ∈ items, it.url = some e.URL ∧ e.URL ≠ ""
  | [], _, acc => fun e he => Or.inl he
  | item :: rest, position, acc => by
    intro e he
    unfold extractLoop at he
    by_cases hfull : max_results ≤ acc.length
    · rw [if_pos hfull] at he
      exact Or.inl he
    · rw [if_neg hfull] at he
      split at he
      next u hurl =>
        by_cases hu : u ≠ ""
        · rw [if_pos hu] at he
          rcases extractLoop_mem max_results rest (position + 1)
              (acc ++ [{ Position := position, URL := u }]) e he with h | ⟨it, hit, hiu⟩
          · rcases List.mem_append.mp h with h | h
            · exact Or.inl h
            · rcases List.mem_singleton.mp h with rfl
              exact Or.inr ⟨item, List.mem_cons_self _ _, by simpa [hurl] using hu⟩
          · exact Or.inr ⟨it, List.mem_cons_of_mem _ hit, hiu⟩
        · rw [if_neg hu] at he
          rcases extractLoop_mem max_results rest (position + 1) acc e he with h | ⟨it, hit, hiu⟩
          · exact Or.inl h
          · exact Or.inr ⟨it, List.mem_cons_of_mem _ hit, hiu⟩
      next hurl =>
        rcases extractLoop_mem max_results rest (position + 1) acc e he with h | ⟨it, hit, hu⟩
        · exact Or.inl h
        · exact Or.inr ⟨it, List.mem_cons_of_mem _ hit, hu⟩

/-- The positions appended by the extraction loop continue strictly
beyond those already accumulated. -/
theorem extractLoop_positions (max_results : Nat) :
    ∀ (items : List SerpItem) (position : Nat) (acc : List ResultEntry),
      (∀ e ∈ acc, e.Position < position) →
      (acc.map fun e => e.Position).Pairwise (· < ·) →
      ((extractLoop max_results items position acc).map fun e => e.Position).Pairwise (· < ·)
  | [], _, acc => fun _ hp => hp
  | item :: rest, position, acc => by
    intro hlt hp
    unfold extractLoop
    by_cases hfull : max_results ≤ acc.length
    · rw [if_pos hfull]; exact hp
    · rw [if_neg hfull]
      have hstep : ∀ e ∈ acc, e.Position < position + 1 :=
        fun e he => Nat.lt_succ_of_lt (hlt e he)
      split
      next u hurl =>
        by_cases hu : u ≠ ""
        · rw [if_pos hu]
          refine extractLoop_positions max_results rest (position + 1)
              (acc ++ [{ Position := position, URL := u }]) ?_ ?_
          · intro e he
            rcases List.mem_append.mp he with h | h
            · exact Nat.lt_succ_of_lt (hlt e h)
            · rcases List.mem_singleton.mp h with rfl
              exact Nat.lt_succ_self _
          · rw [List.map_append]
            refine List.pairwise_append.mpr ⟨hp, List.pairwise_singleton _ _, ?_⟩
            intro a ha b hb
            rcases List.mem_map.mp ha with ⟨e, he, rfl⟩
            rcases List.mem_singleton.mp hb with rfl
            exact hlt e he
        · rw [if_neg hu]
          exact extractLoop_positions max_results rest (position + 1) acc hstep hp
      next hurl =>
        exact extractLoop_positions max_results rest (position + 1) acc hstep hp

/-- The extraction loop reads only the `url` field of an item: rewriting
every `type` field leaves its output unchanged. -/
theorem extractLoop_setItemType (max_results : Nat)
    (f : Option String → Option String) :
    ∀ (items : List SerpItem) (position : Nat) (acc : List ResultEntry),
      extractLoop max_results (items.map (setItemType f)) position acc =
        extractLoop max_results items position acc
  | [], _, _ => rfl
  | item :: rest, position, acc => by
    unfold extractLoop
    by_cases hfull : max_results ≤ acc.length
    · simp [hfull]
    · simp only [List.map_cons, if_neg hfull, setItemType]
      cases item.url with
      | none => exact extractLoop_setItemType max_results f rest (position + 1) acc
      | some u =>
        by_cases hu : u ≠ ""
        · simp only [if_pos hu]
          exact extractLoop_setItemType max_results f rest (position + 1) _
        · simp only [if_neg hu]
          exact extractLoop_setItemType max_results f rest (position + 1) acc

/-- Flattening commutes with rewriting every item's `type` field. -/
theorem result_items_setTypes (f : Option String → Option String) :
    ∀ pages, result_items (setTypes f pages) =
      (result_items pages).map (setItemType f)
  | [] => rfl
  | p :: ps => by
    simp only [result_items, setTypes, List.map_cons, List.flatMap_cons,
      List.map_append]
    exact congrArg _ (result_items_setTypes f ps)

/-- Keys absent from a report stay absent under an update with a
different key. -/
theorem updateReport_keys (k : String) (v : List ResultEntry) (a : String)
    (hak : a ≠ k) :
    ∀ report, a ∉ report.map Prod.fst →
      a ∉ (updateReport report k v).map Prod.fst
  | [], _ => by simpa [updateReport] using hak
  | (k0, v0) :: rest, ha => by
    unfold updateReport
    by_cases hk : k0 = k
    · rw [if_pos hk]
      simp only [List.map_cons, List.mem_cons, not_or]
      refine ⟨hak, ?_⟩
      intro hmem
      exact ha (by simp [hmem])
    · rw [if_neg hk]
      simp only [List.map_cons, List.mem_cons, not_or] at ha ⊢
      exact ⟨ha.1, updateReport_keys k v a hak rest ha.2⟩

/-- The batch loop's report is unchanged when the environment is replaced
by one whose per-query scrape results agree. -/
theorem batchReport_congr (query : String) (max_results : Nat)
    (env env' : String → List FetchOutcome)
    (hq : ∀ q, scrapeResults (env q) max_results =
      scrapeResults (env' q) max_results) :
    ∀ (cities : List String) (report : List (String × List ResultEntry)),
      batchReport query env max_results cities report =
        batchReport query env' max_results cities report
  | [], _ => rfl
  | city :: rest, report => by
    unfold batchReport
    rw [hq (full_query query city)]
    exact batchReport_congr query max_results env env' hq rest _

/-- A query whose scrape result is empty never becomes a key of the
batch report. -/
theorem batchReport_keys (query : String) (max_results : Nat)
    (env : String → List FetchOutcome) (q0 : String)
    (h0 : scrapeResults (env q0) max_results = []) :
    ∀ (cities : List String) (report : List (String × List ResultEntry)),
      q0 ∉ report.map Prod.fst →
      q0 ∉ (batchReport query env max_results cities report).map Prod.fst
  | [], _, ha => ha
  | city :: rest, report, ha => by
    unfold batchReport
    by_cases hempty :
        (scrapeResults (env (full_query query city)) max_results).isEmpty
    · rw [if_pos hempty]
      exact batchReport_keys query max_results env q0 h0 rest report ha
    · rw [if_neg hempty]
      have hne : q0 ≠ full_query query city := by
        intro hqe
        rw [← hqe, h0] at hempty
        exact hempty rfl
      exact batchReport_keys query max_results env q0 h0 rest _
        (updateReport_keys _ _ _ hne report ha)

/-- The poll loop of an empty fetch sequence yields no results. -/
theorem scrapeResults_nil (max_results : Nat) :
    scrapeResults [] max_results = [] := by
  rw [scrapeResults, pollAux_eq]
  simp

/-! ### Claim theorems -/

/-- C4: the poll loop terminates in exactly two ways — it extracts the
first fetch outcome whose task status code is the success code 20000
(inside a 20000 envelope with a non-empty `tasks` array) and stops, or it
exhausts the ten-attempt budget with an empty result; every fetch outcome
that is not successful (transport failure, error envelope, empty tasks,
pending or unrecognized status) is skipped and polling continues. -/
theorem poll_loop_success_or_exhaustion
    (responses : List FetchOutcome) (max_results : Nat) :
    pollAux max_results responses max_attempts =
      match (responses.take max_attempts).find? isSuccess with
      | some r => successResult max_results r
      | none => [] :=
  pollAux_eq max_results max_attempts responses

/-- C3: a run of the poll loop in which no fetch attempt within the
ten-attempt budget is successful returns the explicit empty result list;
the embedding is a total function into plain lists, so no error value is
produced or propagated. -/
theorem exhausted_budget_returns_empty (responses : List FetchOutcome)
    (max_results : Nat)
    (h : ∀ r ∈ responses.take max_attempts, isSuccess r = false) :
    scrapeResults responses max_results = [] := by
  have hnone : (responses.take max_attempts).find? isSuccess = none :=
    List.find?_eq_none.mpr (fun r hr => by simp [h r hr])
  rw [scrapeResults, pollAux_eq, hnone]
  simp

/-- Witness for C3 at a concrete run: ten pending fetches (task status
40602), after which the loop returns the empty list. -/
theorem exhausted_budget_returns_empty_witness :
    (∀ r ∈ (List.replicate 10
        (FetchOutcome.response (some 20000) [⟨some 40602, []⟩])).take max_attempts,
      isSuccess r = false) ∧
    scrapeResults
        (List.replicate 10 (FetchOutcome.response (some 20000) [⟨some 40602, []⟩]))
        100 = [] :=
  ⟨by decide, exhausted_budget_returns_empty _ 100 (by decide)⟩

/-- C2 (amended): the returned result list has length at most the
requested cap, and its `Position` values are strictly increasing in
encounter order; they are the 1-based indices into the flattened item
list, so they need not start at 1 when an earlier item was dropped for
lacking a URL. -/
theorem results_capped_and_positions_increasing
    (responses : List FetchOutcome) (max_results : Nat) :
    (scrapeResults responses max_results).length ≤ max_results ∧
      ((scrapeResults responses max_results).map fun e => e.Position).Pairwise
        (· < ·) := by
  constructor
  · exact List.length_take_le _ _
  · have hp : ((pollAux max_results responses max_attempts).map
        fun e => e.Position).Pairwise (· < ·) := by
      rw [pollAux_eq]
      cases hfind : (responses.take max_attempts).find? isSuccess with
      | none => simp
      | some r =>
        cases r with
        | noResponse => simp [successResult]
        | response sc tasks =>
          cases tasks with
          | nil => simp [successResult]
          | cons t rest =>
            simp only [successResult, extractResults]
            exact extractLoop_positions max_results _ 1 [] (by simp) (by simp)
    rw [scrapeResults, List.map_take]
    exact hp.sublist (List.take_sublist _ _)

/-- C2 counterexample: a successful fetch whose first item lacks a `url`
yields a non-empty result list whose first `Position` is 2, not 1. -/
theorem positions_not_starting_at_one :
    scrapeResults [FetchOutcome.response (some 20000)
        [⟨some 20000, [⟨[⟨some "organic", none⟩,
                         ⟨some "organic", some "https://a.example"⟩]⟩]⟩]] 100 =
      [⟨2, "https://a.example"⟩] ∧
    isSuccess (FetchOutcome.response (some 20000)
        [⟨some 20000, [⟨[⟨some "organic", none⟩,
                         ⟨some "organic", some "https://a.example"⟩]⟩]⟩]) = true ∧
    ((scrapeResults [FetchOutcome.response (some 20000)
        [⟨some 20000, [⟨[⟨some "organic", none⟩,
                         ⟨some "organic", some "https://a.example"⟩]⟩]⟩]] 100).map
      fun e => e.Position).head? ≠ some 1 := by
  refine ⟨by decide, by decide, by decide⟩

/-- C5: every entry of every returned result list has a non-empty URL;
source items with a missing or empty `url` field contribute no entry. -/
theorem result_urls_nonempty (responses : List FetchOutcome)
    (max_results : Nat) (e : ResultEntry)
    (he : e ∈ scrapeResults responses max_results) : e.URL ≠ "" := by
  have he2 : e ∈ pollAux max_results responses max_attempts :=
    List.take_subset _ _ (by rw [scrapeResults] at he; exact he)
  rw [pollAux_eq] at he2
  cases hfind : (responses.take max_attempts).find? isSuccess with
  | none =>
    rw [hfind] at he2
    simp at he2
  | some r =>
    rw [hfind] at he2
    cases r with
    | noResponse => simp [successResult] at he2
    | response sc tasks =>
      cases tasks with
      | nil => simp [successResult] at he2
      | cons t rest =>
        simp only [successResult, extractResults] at he2
        rcases extractLoop_mem max_results _ 1 [] e he2 with h | ⟨it, _, _, hne⟩
        · simp at h
        · exact hne

/-- Witness for C5 at a concrete successful run with one organic item. -/
theorem result_urls_nonempty_witness :
    ((⟨1, "https://a.example"⟩ : ResultEntry) ∈
        scrapeResults [FetchOutcome.response (some 20000)
          [⟨some 20000, [⟨[⟨some "organic", some "https://a.example"⟩]⟩]⟩]] 100) ∧
      ("https://a.example" : String) ≠ "" :=
  ⟨by decide,
    result_urls_nonempty
      [FetchOutcome.response (some 20000)
        [⟨some 20000, [⟨[⟨some "organic", some "https://a.example"⟩]⟩]⟩]]
      100 ⟨1, "https://a.example"⟩ (by decide)⟩

/-- C1 (amended): the extractor applies no `type` filter — its output is
unchanged under any rewriting of every item's `type` field, and every
returned entry originates from a source item carrying its URL,
whatever that item's `type`. -/
theorem organic_filter_not_applied (f : Option String → Option String)
    (max_results : Nat) (pages : List SerpPage) :
    extractResults max_results (setTypes f pages) =
        extractResults max_results pages ∧
      ∀ e ∈ extractResults max_results pages,
        ∃ it ∈ result_items pages, it.url = some e.URL := by
  constructor
  · rw [extractResults, extractResults, result_items_setTypes]
    exact extractLoop_setItemType max_results f (result_items pages) 1 []
  · intro e he
    rcases extractLoop_mem max_results (result_items pages) 1 [] e he
        with h | ⟨it, hit, hiu, _⟩
    · simp at h
    · exact ⟨it, hit, hiu⟩

/-- C1 counterexample: a payload whose single item has `type` "paid"
still contributes a result entry, so the extractor does not keep only
entries of type "organic". -/
theorem organic_filter_counterexample :
    extractResults 100 [⟨[⟨some "paid", some "https://ad.example"⟩]⟩] =
        [⟨1, "https://ad.example"⟩] ∧
      (result_items [⟨[⟨some "paid", some "https://ad.example"⟩]⟩]).map
          (fun it => it.type) = [some "paid"] := by
  refine ⟨by decide, by decide⟩

/-- Witness for C1 at a concrete payload: erasing the `type` fields
leaves the extraction unchanged, and the returned entry's URL is carried
by a source item. -/
theorem organic_filter_not_applied_witness :
    ((⟨1, "https://b.example"⟩ : ResultEntry) ∈
        extractResults 100 [⟨[⟨some "featured_snippet", some "https://b.example"⟩]⟩]) ∧
      ∃ it ∈ result_items [⟨[⟨some "featured_snippet", some "https://b.example"⟩]⟩],
        it.url = some "https://b.example" :=
  ⟨by decide,
    (organic_filter_not_applied (fun _ => none) 100
      [⟨[⟨some "featured_snippet", some "https://b.example"⟩]⟩]).2
      ⟨1, "https://b.example"⟩ (by decide)⟩

/-- C6 (amended): the batch driver trims each location line and ignores
blank lines, but does not deduplicate — every trimmed non-blank line is
submitted once per occurrence, in order. -/
theorem batch_trims_blanks_keeps_duplicates (query cities : String) :
    batchSubmissions query (cities_list cities) =
        (cities_list cities).map (full_query query) ∧
      ∀ c ∈ cities_list cities,
        c ≠ "" ∧ ∃ raw ∈ pySplitLines cities, c = pyStrip raw := by
  refine ⟨rfl, ?_⟩
  intro c hc
  rcases List.mem_filter.mp hc with ⟨hmem, hne⟩
  refine ⟨by simpa using hne, ?_⟩
  rcases List.mem_map.mp hmem with ⟨raw, hraw, rfl⟩
  exact ⟨raw, hraw, rfl⟩

/-- C6 counterexample: the city list "Lyon\n\nLyon" keeps both
occurrences of "Lyon" (the blank line is dropped), so "Lyon" is
submitted twice, not exactly once. -/
theorem batch_no_dedup_counterexample :
    cities_list "Lyon\n\nLyon" = ["Lyon", "Lyon"] ∧
      batchSubmissions "avocat" (cities_list "Lyon\n\nLyon") =
        ["avocat Lyon", "avocat Lyon"] ∧
      (batchSubmissions "avocat" (cities_list "Lyon\n\nLyon")).count
        "avocat Lyon" ≠ 1 := by
  refine ⟨by decide, by decide, by decide⟩

/-- Witness for C6 at a concrete city list. -/
theorem batch_trims_blanks_keeps_duplicates_witness :
    ("Lyon" ∈ cities_list " Lyon \n\nParis") ∧
      ("Lyon" ≠ "" ∧ ∃ raw ∈ pySplitLines " Lyon \n\nParis", "Lyon" = pyStrip raw) :=
  ⟨by decide,
    (batch_trims_blanks_keeps_duplicates "avocat" " Lyon \n\nParis").2
      "Lyon" (by decide)⟩

/-- C7 (amended): for every decoded POST response that is absent, falsy,
or a JSON object whose `tasks` field (when truthy) is an array whose
first element is an object, the submission phase returns a value — the
task id found at `tasks[0].id` or the explicit no-task outcome — and no
exception escapes it; truthy non-object response content, however, makes
an attribute error escape. -/
theorem submit_no_raise_on_object_shapes (p : Option Json)
    (h : submitShapeOk p = true) : (submitPhase p).isOk = true := by
  cases p with
  | none => rfl
  | some post =>
    cases post with
    | null => rfl
    | bool b =>
      by_cases ht : (Json.bool b).truthy = false
      · simp only [submitPhase, if_pos ht]; rfl
      · simp [submitShapeOk, ht] at h
    | num n =>
      by_cases ht : (Json.num n).truthy = false
      · simp only [submitPhase, if_pos ht]; rfl
      · simp [submitShapeOk, ht] at h
    | str s =>
      by_cases ht : (Json.str s).truthy = false
      · simp only [submitPhase, if_pos ht]; rfl
      · simp [submitShapeOk, ht] at h
    | arr xs =>
      by_cases ht : (Json.arr xs).truthy = false
      · simp only [submitPhase, if_pos ht]; rfl
      · simp [submitShapeOk, ht] at h
    | obj fs =>
      by_cases ht : (Json.obj fs).truthy = false
      · simp only [submitPhase, if_pos ht]; rfl
      · simp only [submitShapeOk, if_neg ht] at h
        simp only [submitPhase, if_neg ht, Json.get]
        split
        · by_cases h2 : ((lookupField fs "tasks").getD (Json.arr [])).truthy = false
          · simp only [Json.get, if_pos h2]; rfl
          · unfold tasksShapeOk at h
            rw [if_neg h2] at h
            rw [if_neg h2]
            generalize (lookupField fs "tasks").getD (Json.arr []) = tasks at h ⊢
            cases tasks with
            | null => exact Bool.noConfusion h
            | bool b => exact Bool.noConfusion h
            | num n => exact Bool.noConfusion h
            | str s => exact Bool.noConfusion h
            | obj g => exact Bool.noConfusion h
            | arr elems =>
              cases elems with
              | nil => exact Bool.noConfusion h
              | cons e0 es =>
                cases e0 with
                | obj g =>
                  simp only [Json.index, List.get?, Json.get]
                  split <;> rfl
                | null => exact Bool.noConfusion h
                | bool b => exact Bool.noConfusion h
                | num n => exact Bool.noConfusion h
                | str s => exact Bool.noConfusion h
                | arr ys => exact Bool.noConfusion h
        · rfl

/-- C7 counterexample: a decoded POST response that is a non-empty JSON
array makes the submission phase raise an attribute error, so the claim
that no exception escapes for any response content fails. -/
theorem submit_raises_on_array_response :
    submitPhase (some (Json.arr [Json.num 1])) =
      Except.error "AttributeError" := rfl

/-- Witness for C7 at a concrete well-shaped response carrying a task id. -/
theorem submit_no_raise_on_object_shapes_witness :
    submitShapeOk (some (Json.obj [("status_code", Json.num 20000),
        ("tasks", Json.arr [Json.obj [("id", Json.str "t1")]])])) = true ∧
      (submitPhase (some (Json.obj [("status_code", Json.num 20000),
        ("tasks", Json.arr [Json.obj [("id", Json.str "t1")]])]))).isOk = true :=
  ⟨rfl, submit_no_raise_on_object_shapes _ rfl⟩

/-- C8: if either secret key is absent, `main` reports missing
credentials and aborts with no location processed and no query
submitted. -/
theorem missing_secrets_aborts (secrets : List String) (query cities : String)
    (env : String → List FetchOutcome) (max_results : Nat)
    (h : secrets.contains "DATAFORSEO_USERNAME" = false ∨
      secrets.contains "DATAFORSEO_PASSWORD" = false) :
    main secrets query cities env max_results = .missingCredentials ∧
      submissionsOf (main secrets query cities env max_results) = [] := by
  have hb : (secrets.contains "DATAFORSEO_USERNAME" &&
      secrets.contains "DATAFORSEO_PASSWORD") = false := by
    rcases h with h | h
    · rw [h, Bool.false_and]
    · rw [h, Bool.and_false]
  have hm : main secrets query cities env max_results = .missingCredentials := by
    unfold main
    rw [hb]
    simp
  exact ⟨hm, by rw [hm]; rfl⟩

/-- Witness for C8: a secret store holding only the username key. -/
theorem missing_secrets_aborts_witness :
    ((["DATAFORSEO_USERNAME"] : List String).contains "DATAFORSEO_USERNAME" = false ∨
      (["DATAFORSEO_USERNAME"] : List String).contains "DATAFORSEO_PASSWORD" = false) ∧
    (main ["DATAFORSEO_USERNAME"] "avocat" "Lyon" (fun _ => []) 100 =
        .missingCredentials ∧
      submissionsOf (main ["DATAFORSEO_USERNAME"] "avocat" "Lyon"
        (fun _ => []) 100) = []) :=
  ⟨Or.inr (by decide),
    missing_secrets_aborts ["DATAFORSEO_USERNAME"] "avocat" "Lyon"
      (fun _ => []) 100 (Or.inr (by decide))⟩

/-- C9: a location whose poll loop ends with a success carrying zero
extractable items is treated by the batch driver exactly like a location
with an absent outcome — replacing its fetch sequence by one that never
succeeds leaves the aggregate report unchanged, and its query never
becomes a key of the report (hence of the exported workbook). -/
theorem empty_success_indistinguishable (query : String)
    (env : String → List FetchOutcome) (max_results : Nat)
    (cities : List String) (q0 : String)
    (h : scrapeResults (env q0) max_results = []) :
    batchReport query env max_results cities [] =
        batchReport query (fun q => if q = q0 then [] else env q)
          max_results cities [] ∧
      q0 ∉ (batchReport query env max_results cities []).map Prod.fst := by
  constructor
  · refine batchReport_congr query max_results env _ ?_ cities []
    intro q
    by_cases hq : q = q0
    · rw [hq, if_pos rfl, h, scrapeResults_nil]
    · rw [if_neg hq]
  · exact batchReport_keys query max_results env q0 h cities [] (by simp)

/-- Witness for C9: one city, a fetch sequence that succeeds with a
single URL-less item. -/
theorem empty_success_indistinguishable_witness :
    (scrapeResults ((fun _ => [FetchOutcome.response (some 20000)
        [⟨some 20000, [⟨[⟨some "organic", none⟩]⟩]⟩]]) "avocat Lyon") 100 = []) ∧
    (batchReport "avocat" (fun _ => [FetchOutcome.response (some 20000)
        [⟨some 20000, [⟨[⟨some "organic", none⟩]⟩]⟩]]) 100 ["Lyon"] [] =
      batchReport "avocat" (fun q => if q = "avocat Lyon" then []
          else (fun _ => [FetchOutcome.response (some 20000)
            [⟨some 20000, [⟨[⟨some "organic", none⟩]⟩]⟩]]) q) 100 ["Lyon"] [] ∧
      "avocat Lyon" ∉ (batchReport "avocat"
        (fun _ => [FetchOutcome.response (some 20000)
          [⟨some 20000, [⟨[⟨some "organic", none⟩]⟩]⟩]]) 100 ["Lyon"] []).map
        Prod.fst) :=
  ⟨by decide,
    empty_success_indistinguishable "avocat" _ 100 ["Lyon"] "avocat Lyon"
      (by decide)⟩

/-- C10: every submitted query's POST body carries the fixed parameters
`location_name` "France", `language_name` "French", `device` "desktop"
and `depth` 100; the per-city location appears only inside the combined
keyword, and the body does not depend on the caller's result cap. -/
theorem post_body_fixed_params (query city : String) (max_results : Nat) :
    bodyField (submittedBody query city max_results) "keyword" =
        some (.str (query ++ " " ++ city)) ∧
      bodyField (submittedBody query city max_results) "location_name" =
        some (.str "France") ∧
      bodyField (submittedBody query city max_results) "language_name" =
        some (.str "French") ∧
      bodyField (submittedBody query city max_results) "device" =
        some (.str "desktop") ∧
      bodyField (submittedBody query city max_results) "depth" =
        some (.num 100) ∧
      submittedBody query city max_results = submittedBody query city 0 :=
  ⟨rfl, rfl, rfl, rfl, rfl, rfl⟩

end ScrapSerp
